import Mathlib

/-!
Verification of the provider-configuration module of nextjs-chat.

The module under study builds two exported values at load time:
`customAgentProvider`, an OpenAI-compatible provider configuration read
from `CUSTOM_AGENT_*` environment variables, and `myProvider`, a mapping
of four logical model roles to language models, selected between a test
branch (static test doubles) and a production branch (backend models of
the custom-agent provider).

Embedding choices:
* `process.env` is a map from variable names to optional strings; a
  variable may be unset (`none`), empty (`some ""`), or non-empty.
* `isTestEnvironment` is imported from the `constants` module, which is
  not part of the sources; per the spec the test/production selection is
  made "based on environment", so it is modelled as a boolean component
  of the environment whose derivation is left unspecified.
* `JSON.parse` is the standard library parser, an external dependency:
  it is modelled as a parameter `JsonModel`, a partial parsing function
  into an opaque value type together with the empty-object value. A
  string is valid JSON exactly when the parser succeeds on it.
* A JavaScript expression `e || d` on strings yields `d` when `e` is
  undefined or empty (falsy) and `e` otherwise; `jsOr` models this.
* A top-level `const` initializer that throws makes module loading fail;
  fallible evaluation is modelled with `Option`.
-/

/-- The process environment: the string-valued variables of `process.env`
together with the `isTestEnvironment` flag imported from the constants
module (modelled from the spec: the constants module is not among the
sources; the spec only says the selection is based on the environment). -/
structure Env where
  vars : String → Option String
  isTest : Bool

/-- External JSON facility (the standard library parser): a partial
parse function into an opaque value type `α`, and the value denoting the
empty object literal. -/
structure JsonModel (α : Type) where
  parse : String → Option α
  emptyObj : α

/-- JavaScript `v || d` for an optional string `v`: the default applies
when the variable is unset or set to the empty string (both falsy). -/
def jsOr (v : Option String) (d : String) : String :=
  match v with
  | some s => if s = "" then d else s
  | none => d

/-- The settings object produced by `createOpenAICompatible`. -/
structure ProviderConfig (α : Type) where
  name : String
  apiKey : String
  baseURL : String
  headers : α
deriving DecidableEq

/-- Middleware values occurring in the module: the result of
`extractReasoningMiddleware` with a tag name. -/
inductive Middleware where
  | extractReasoning (tagName : String)
deriving DecidableEq

/-- `extractReasoningMiddleware` from the `ai` package, applied to a
settings object carrying `tagName`. -/
def extractReasoningMiddleware (tagName : String) : Middleware :=
  Middleware.extractReasoning tagName

/-- Language-model values occurring in the module: the four test doubles
imported from `models.test` (modelled from the spec: `models.test` is
not among the sources; the spec calls them test doubles, so they are
four distinct opaque constructors), a backend model obtained by applying
a provider to a model identifier, and a middleware-wrapped model. -/
inductive LanguageModel (α : Type) where
  | chatModel
  | reasoningModel
  | titleModel
  | artifactModel
  | backend (provider : ProviderConfig α) (modelId : String)
  | wrapped (model : LanguageModel α) (middleware : Middleware)
deriving DecidableEq

/-- `wrapLanguageModel` from the `ai` package: pairs a model with a
middleware. -/
def wrapLanguageModel {α : Type} (model : LanguageModel α)
    (middleware : Middleware) : LanguageModel α :=
  LanguageModel.wrapped model middleware

/-- The provider object built by `customProvider`: the source passes a
`languageModels` record (kept as an association list to preserve the
keys and their multiplicity) and leaves `imageModels` out (the image
models block is commented out), so the image-model table is empty. -/
structure Provider (α : Type) where
  languageModels : List (String × LanguageModel α)
  imageModels : List (String × String)
deriving DecidableEq

/-- `customProvider` from the `ai` package as the source calls it: only
`languageModels` is supplied, so no image models are configured. -/
def customProvider {α : Type} (languageModels : List (String × LanguageModel α)) :
    Provider α :=
  { languageModels := languageModels, imageModels := [] }

/-- The `headers` argument of `createOpenAICompatible`:
`process.env.CUSTOM_AGENT_HEADERS ? JSON.parse(...) : ...` evaluates the
parser only when the variable is set to a non-empty (truthy) string, and
otherwise uses the empty object literal; a parse failure propagates as a
module-load failure. -/
def customAgentHeaders {α : Type} (J : JsonModel α) (env : Env) : Option α :=
  match env.vars "CUSTOM_AGENT_HEADERS" with
  | some s => if s = "" then some J.emptyObj else J.parse s
  | none => some J.emptyObj

/-- The top-level `customAgentProvider` constant: `createOpenAICompatible`
applied to the name, apiKey, baseURL and headers read from the
environment, with the fallbacks of the source. -/
def customAgentProvider {α : Type} (J : JsonModel α) (env : Env) :
    Option (ProviderConfig α) :=
  (customAgentHeaders J env).map fun h =>
    { name := jsOr (env.vars "CUSTOM_AGENT_PROVIDER_NAME") "custom-agent"
      apiKey := jsOr (env.vars "CUSTOM_AGENT_API_KEY") "dummy-key"
      baseURL := jsOr (env.vars "CUSTOM_AGENT_BASE_URL") "http://localhost:8000/v1"
      headers := h }

/-- The exported `myProvider` constant. The conditional selects the test
mapping of four test doubles or the production mapping of four backend
models of `customAgentProvider`; since the top-level `customAgentProvider`
initializer runs before this one, a headers parse failure aborts the
module in either branch, which the outer `Option.map` reflects. -/
def myProvider {α : Type} (J : JsonModel α) (env : Env) : Option (Provider α) :=
  (customAgentProvider J env).map fun cap =>
    if env.isTest then
      customProvider
        [("chat-model", LanguageModel.chatModel),
         ("chat-model-reasoning", LanguageModel.reasoningModel),
         ("title-model", LanguageModel.titleModel),
         ("artifact-model", LanguageModel.artifactModel)]
    else
      customProvider
        [("chat-model",
            LanguageModel.backend cap
              (jsOr (env.vars "CUSTOM_AGENT_CHAT_MODEL") "gpt-4o-mini")),
         ("chat-model-reasoning",
            wrapLanguageModel
              (LanguageModel.backend cap
                (jsOr (env.vars "CUSTOM_AGENT_REASONING_MODEL") "gpt-4o"))
              (extractReasoningMiddleware "think")),
         ("title-model",
            LanguageModel.backend cap
              (jsOr (env.vars "CUSTOM_AGENT_TITLE_MODEL") "gpt-3.5-turbo")),
         ("artifact-model",
            LanguageModel.backend cap
              (jsOr (env.vars "CUSTOM_AGENT_ARTIFACT_MODEL") "gpt-4o"))]

/-- The values exported by a successful load of the module. -/
structure ModuleExports (α : Type) where
  customAgentProvider : ProviderConfig α
  myProvider : Provider α
deriving DecidableEq

/-- Loading the module: the two top-level constants are evaluated in
order; a failure in either aborts the load. -/
def evalModule {α : Type} (J : JsonModel α) (env : Env) :
    Option (ModuleExports α) :=
  (customAgentProvider J env).bind fun cap =>
    (myProvider J env).map fun p =>
      { customAgentProvider := cap, myProvider := p }

/-- The eight environment variables the module reads. -/
def customAgentVarNames : List String :=
  ["CUSTOM_AGENT_PROVIDER_NAME", "CUSTOM_AGENT_API_KEY",
   "CUSTOM_AGENT_BASE_URL", "CUSTOM_AGENT_HEADERS",
   "CUSTOM_AGENT_CHAT_MODEL", "CUSTOM_AGENT_REASONING_MODEL",
   "CUSTOM_AGENT_TITLE_MODEL", "CUSTOM_AGENT_ARTIFACT_MODEL"]

/-- models.ts: the default chat model identifier. -/
def DEFAULT_CHAT_MODEL : String := "chat-model"

/-- models.ts: an entry of the chat-model list. -/
structure ChatModel where
  id : String
  name : String
  description : String
deriving DecidableEq

/-- models.ts: the exported list of selectable chat models. -/
def chatModels : List ChatModel :=
  [{ id := "chat-model", name := "Chat model",
     description := "Primary model for all-purpose chat via custom agent backend" },
   { id := "chat-model-reasoning", name := "Reasoning model",
     description := "Uses advanced reasoning via custom agent backend" }]

/-- The backend model identifier wired into a language model, looking
through middleware wrapping; test doubles carry none. -/
def backendId {α : Type} : LanguageModel α → Option String
  | LanguageModel.backend _ id => some id
  | LanguageModel.wrapped m _ => backendId m
  | _ => none

/-- Whether a language model carries middleware at its top level. -/
def hasMiddleware {α : Type} : LanguageModel α → Bool
  | LanguageModel.wrapped _ _ => true
  | _ => false

/-- A JSON facility whose parser accepts every string (concrete instance
for evaluating the model on closed inputs). -/
def JUnit : JsonModel Unit := { parse := fun _ => some (), emptyObj := () }

/-- A JSON facility whose parser rejects every string. -/
def JNone : JsonModel Unit := { parse := fun _ => none, emptyObj := () }

/-- A test environment with every variable unset. -/
def envTestNone : Env := { vars := fun _ => none, isTest := true }

/-- A production environment with every variable unset. -/
def envProdNone : Env := { vars := fun _ => none, isTest := false }

/-- A second production environment with every variable unset. -/
def envProdNone2 : Env := { vars := fun _ => none, isTest := false }

/-- A production environment with an unrelated variable set. -/
def envProdExtra : Env :=
  { vars := fun v => if v = "SOME_OTHER_VAR" then some "x" else none,
    isTest := false }

/-- A production environment whose chat-model variable is set to the
empty string. -/
def envProdEmptyChat : Env :=
  { vars := fun v => if v = "CUSTOM_AGENT_CHAT_MODEL" then some "" else none,
    isTest := false }

/-- A production environment whose headers variable is set to a string
the parser rejects. -/
def envHdrBad : Env :=
  { vars := fun v => if v = "CUSTOM_AGENT_HEADERS" then some "not json" else none,
    isTest := false }

/-- A test environment that sets a model-selection variable. -/
def envTestModels : Env :=
  { vars := fun v => if v = "CUSTOM_AGENT_CHAT_MODEL" then some "other-model" else none,
    isTest := true }

/-- The provider configuration obtained when every variable is unset. -/
def capDefaultU : ProviderConfig Unit :=
  { name := "custom-agent", apiKey := "dummy-key",
    baseURL := "http://localhost:8000/v1", headers := () }

/-- The test-branch provider value. -/
def pTestU : Provider Unit :=
  customProvider
    [("chat-model", LanguageModel.chatModel),
     ("chat-model-reasoning", LanguageModel.reasoningModel),
     ("title-model", LanguageModel.titleModel),
     ("artifact-model", LanguageModel.artifactModel)]

/-- The production-branch provider value when every variable is unset. -/
def pProdU : Provider Unit :=
  customProvider
    [("chat-model", LanguageModel.backend capDefaultU "gpt-4o-mini"),
     ("chat-model-reasoning",
        wrapLanguageModel (LanguageModel.backend capDefaultU "gpt-4o")
          (extractReasoningMiddleware "think")),
     ("title-model", LanguageModel.backend capDefaultU "gpt-3.5-turbo"),
     ("artifact-model", LanguageModel.backend capDefaultU "gpt-4o")]

/-- Elimination form for a successful `myProvider`: the headers computed,
hence `customAgentProvider` succeeded, and the provider is the branch
selected by `isTest`, spelled out. -/
theorem myProvider_some_elim {α : Type} (J : JsonModel α) (env : Env)
    (p : Provider α) (h : myProvider J env = some p) :
    ∃ cap, customAgentProvider J env = some cap ∧
      p = (if env.isTest then
            customProvider
              [("chat-model", LanguageModel.chatModel),
               ("chat-model-reasoning", LanguageModel.reasoningModel),
               ("title-model", LanguageModel.titleModel),
               ("artifact-model", LanguageModel.artifactModel)]
          else
            customProvider
              [("chat-model",
                  LanguageModel.backend cap
                    (jsOr (env.vars "CUSTOM_AGENT_CHAT_MODEL") "gpt-4o-mini")),
               ("chat-model-reasoning",
                  wrapLanguageModel
                    (LanguageModel.backend cap
                      (jsOr (env.vars "CUSTOM_AGENT_REASONING_MODEL") "gpt-4o"))
                    (extractReasoningMiddleware "think")),
               ("title-model",
                  LanguageModel.backend cap
                    (jsOr (env.vars "CUSTOM_AGENT_TITLE_MODEL") "gpt-3.5-turbo")),
               ("artifact-model",
                  LanguageModel.backend cap
                    (jsOr (env.vars "CUSTOM_AGENT_ARTIFACT_MODEL") "gpt-4o"))]) := by
  unfold myProvider at h
  cases hc : customAgentProvider J env with
  | none => rw [hc] at h; simp at h
  | some cap =>
    rw [hc] at h
    simp only [Option.map_some'] at h
    injection h with h
    exact ⟨cap, rfl, h.symm⟩

/-- The module fails to load exactly when the headers computation fails. -/
theorem evalModule_none_iff {α : Type} (J : JsonModel α) (env : Env) :
    evalModule J env = none ↔ customAgentHeaders J env = none := by
  cases hh : customAgentHeaders J env with
  | none => simp [evalModule, myProvider, customAgentProvider, hh]
  | some h => simp [evalModule, myProvider, customAgentProvider, hh]

/-- The headers computation fails exactly on a set, non-empty,
unparsable headers variable. -/
theorem customAgentHeaders_none_iff {α : Type} (J : JsonModel α) (env : Env) :
    customAgentHeaders J env = none ↔
      ∃ s, env.vars "CUSTOM_AGENT_HEADERS" = some s ∧ s ≠ "" ∧ J.parse s = none := by
  cases hv : env.vars "CUSTOM_AGENT_HEADERS" with
  | none => simp [customAgentHeaders, hv]
  | some s =>
    by_cases hs : s = "" <;> simp [customAgentHeaders, hv, hs]

/-- A successful headers computation gives a successful load whose
exported provider configuration carries those headers. -/
theorem evalModule_headers {α : Type} (J : JsonModel α) (env : Env) (h : α)
    (hh : customAgentHeaders J env = some h) :
    ∃ m, evalModule J env = some m ∧ m.customAgentProvider.headers = h := by
  unfold evalModule myProvider customAgentProvider
  rw [hh]
  exact ⟨_, rfl, rfl⟩

/-- The keys of the language-model mapping, in either branch. -/
theorem languageModels_keys {α : Type} (J : JsonModel α) (env : Env)
    (p : Provider α) (h : myProvider J env = some p) :
    p.languageModels.map Prod.fst =
      ["chat-model", "chat-model-reasoning", "title-model", "artifact-model"] := by
  obtain ⟨cap, _, hp⟩ := myProvider_some_elim J env p h
  subst hp
  by_cases ht : env.isTest <;> simp [ht, customProvider]

/-- Claim C1: myProvider is one of two configurations selected by
isTestEnvironment: in a test environment its language models are the
four test doubles from models.test; otherwise they are models of the
remote custom-agent provider built by createOpenAICompatible. -/
theorem myProvider_two_branches {α : Type} (J : JsonModel α) (env : Env)
    (p : Provider α) (h : myProvider J env = some p) :
    (env.isTest = true → p.languageModels =
      [("chat-model", LanguageModel.chatModel),
       ("chat-model-reasoning", LanguageModel.reasoningModel),
       ("title-model", LanguageModel.titleModel),
       ("artifact-model", LanguageModel.artifactModel)]) ∧
    (env.isTest = false → ∃ cap, customAgentProvider J env = some cap ∧
      p.languageModels =
      [("chat-model",
          LanguageModel.backend cap
            (jsOr (env.vars "CUSTOM_AGENT_CHAT_MODEL") "gpt-4o-mini")),
       ("chat-model-reasoning",
          wrapLanguageModel
            (LanguageModel.backend cap
              (jsOr (env.vars "CUSTOM_AGENT_REASONING_MODEL") "gpt-4o"))
            (extractReasoningMiddleware "think")),
       ("title-model",
          LanguageModel.backend cap
            (jsOr (env.vars "CUSTOM_AGENT_TITLE_MODEL") "gpt-3.5-turbo")),
       ("artifact-model",
          LanguageModel.backend cap
            (jsOr (env.vars "CUSTOM_AGENT_ARTIFACT_MODEL") "gpt-4o"))]) := by
  obtain ⟨cap, hc, hp⟩ := myProvider_some_elim J env p h
  subst hp
  constructor
  · intro ht
    simp [ht, customProvider]
  · intro ht
    exact ⟨cap, hc, by simp [ht, customProvider]⟩

/-- Claim C1 witness: concrete instances of both branches. -/
theorem myProvider_two_branches_witness :
    pTestU.languageModels =
      [("chat-model", LanguageModel.chatModel),
       ("chat-model-reasoning", LanguageModel.reasoningModel),
       ("title-model", LanguageModel.titleModel),
       ("artifact-model", LanguageModel.artifactModel)] :=
  (myProvider_two_branches JUnit envTestNone pTestU rfl).1 rfl

/-- Claim C2: in both branches the language-model mapping has exactly
the four role keys, in order, and no image models are configured. -/
theorem myProvider_exact_keys {α : Type} (J : JsonModel α) (env : Env)
    (p : Provider α) (h : myProvider J env = some p) :
    p.languageModels.map Prod.fst =
      ["chat-model", "chat-model-reasoning", "title-model", "artifact-model"] ∧
    p.imageModels = [] := by
  refine ⟨languageModels_keys J env p h, ?_⟩
  obtain ⟨cap, _, hp⟩ := myProvider_some_elim J env p h
  subst hp
  by_cases ht : env.isTest <;> simp [ht, customProvider]

/-- Claim C2 witness: the property evaluated at a concrete production
environment. -/
theorem myProvider_exact_keys_witness :
    pProdU.languageModels.map Prod.fst =
      ["chat-model", "chat-model-reasoning", "title-model", "artifact-model"] ∧
    pProdU.imageModels = [] :=
  myProvider_exact_keys JUnit envProdNone pProdU rfl

/-- Claim C3 counterexample: with CUSTOM_AGENT_CHAT_MODEL set (to the
empty string) in a production environment, the chat-model role is wired
to the default identifier "gpt-4o-mini", not to the variable's value "",
so the identifier is not always the variable's value when set. -/
theorem prod_chat_model_empty_cex :
    envProdEmptyChat.vars "CUSTOM_AGENT_CHAT_MODEL" = some "" ∧
    envProdEmptyChat.isTest = false ∧
    ((myProvider JUnit envProdEmptyChat).bind fun p =>
        (p.languageModels.lookup "chat-model").bind backendId) =
      some "gpt-4o-mini" ∧
    ("gpt-4o-mini" : String) ≠ "" := by
  refine ⟨by decide, rfl, by decide, by decide⟩

/-- Claim C3 (amended): in the non-test branch, each role's backend
model identifier is the value of its environment variable when that
variable is set to a non-empty string, and otherwise the fixed default:
"chat-model" uses CUSTOM_AGENT_CHAT_MODEL or "gpt-4o-mini",
"chat-model-reasoning" uses CUSTOM_AGENT_REASONING_MODEL or "gpt-4o",
"title-model" uses CUSTOM_AGENT_TITLE_MODEL or "gpt-3.5-turbo", and
"artifact-model" uses CUSTOM_AGENT_ARTIFACT_MODEL or "gpt-4o". -/
theorem prod_backend_model_ids {α : Type} (J : JsonModel α) (env : Env)
    (p : Provider α) (h : myProvider J env = some p)
    (ht : env.isTest = false) :
    ∀ pr ∈ [("chat-model", "CUSTOM_AGENT_CHAT_MODEL", "gpt-4o-mini"),
            ("chat-model-reasoning", "CUSTOM_AGENT_REASONING_MODEL", "gpt-4o"),
            ("title-model", "CUSTOM_AGENT_TITLE_MODEL", "gpt-3.5-turbo"),
            ("artifact-model", "CUSTOM_AGENT_ARTIFACT_MODEL", "gpt-4o")],
      (p.languageModels.lookup pr.1).bind backendId =
        some (match env.vars pr.2.1 with
              | some s => if s = "" then pr.2.2 else s
              | none => pr.2.2) := by
  obtain ⟨cap, _, hp⟩ := myProvider_some_elim J env p h
  subst hp
  rw [ht]
  intro pr hpr
  fin_cases hpr <;> rfl

/-- Claim C3 witness: at a production environment with no variables set,
the chat-model role resolves to the default identifier. -/
theorem prod_backend_model_ids_witness :
    (pProdU.languageModels.lookup "chat-model").bind backendId =
      some "gpt-4o-mini" :=
  prod_backend_model_ids JUnit envProdNone pProdU rfl rfl
    ("chat-model", "CUSTOM_AGENT_CHAT_MODEL", "gpt-4o-mini") (by decide)

/-- Claim C4: in the non-test branch, chat-model-reasoning is wrapped by
wrapLanguageModel with extractReasoningMiddleware tagged "think" around
a plain backend model, and it is the only entry carrying middleware. -/
theorem prod_reasoning_only_middleware {α : Type} (J : JsonModel α) (env : Env)
    (p : Provider α) (h : myProvider J env = some p)
    (ht : env.isTest = false) :
    (∃ cap, customAgentProvider J env = some cap ∧
      p.languageModels.lookup "chat-model-reasoning" =
        some (wrapLanguageModel
          (LanguageModel.backend cap
            (jsOr (env.vars "CUSTOM_AGENT_REASONING_MODEL") "gpt-4o"))
          (extractReasoningMiddleware "think"))) ∧
    (p.languageModels.filter fun km => hasMiddleware km.2).map Prod.fst =
      ["chat-model-reasoning"] := by
  obtain ⟨cap, hc, hp⟩ := myProvider_some_elim J env p h
  subst hp
  rw [ht]
  exact ⟨⟨cap, hc, rfl⟩, rfl⟩

/-- Claim C4 witness: the middleware facts evaluated at a concrete
production environment. -/
theorem prod_reasoning_only_middleware_witness :
    (pProdU.languageModels.filter fun km => hasMiddleware km.2).map Prod.fst =
      ["chat-model-reasoning"] :=
  (prod_reasoning_only_middleware JUnit envProdNone pProdU rfl rfl).2

/-- Claim C5: module initialization fails exactly when
CUSTOM_AGENT_HEADERS is set to a non-empty string the JSON parser
rejects; when the variable is unset or empty, the headers passed to
createOpenAICompatible are the empty object and the load succeeds. -/
theorem moduleLoad_fails_iff_bad_headers {α : Type} (J : JsonModel α)
    (env : Env) :
    (evalModule J env = none ↔
      ∃ s, env.vars "CUSTOM_AGENT_HEADERS" = some s ∧ s ≠ "" ∧
        J.parse s = none) ∧
    ((env.vars "CUSTOM_AGENT_HEADERS" = none ∨
        env.vars "CUSTOM_AGENT_HEADERS" = some "") →
      ∃ m, evalModule J env = some m ∧
        m.customAgentProvider.headers = J.emptyObj) := by
  constructor
  · rw [evalModule_none_iff]
    exact customAgentHeaders_none_iff J env
  · intro hv
    apply evalModule_headers
    rcases hv with hv | hv <;> simp [customAgentHeaders, hv]

/-- Claim C5 witness: with headers set to an unparsable string the
module fails to load. -/
theorem moduleLoad_fails_iff_bad_headers_witness :
    evalModule JNone envHdrBad = none :=
  (moduleLoad_fails_iff_bad_headers JNone envHdrBad).1.mpr
    ⟨"not json", by decide, by decide, rfl⟩

/-- Claim C6 counterexample: two environments that agree on all eight
CUSTOM_AGENT variables (all unset) but differ in the test/production
selection yield different provider configurations, so the configuration
is not determined by the eight variables alone. -/
theorem config_not_determined_by_vars_cex :
    (∀ v ∈ customAgentVarNames, envTestNone.vars v = envProdNone.vars v) ∧
    evalModule JUnit envTestNone ≠ evalModule JUnit envProdNone :=
  ⟨fun _ _ => rfl, by decide⟩

/-- Claim C6 (amended): for any two environments that agree on the
eight CUSTOM_AGENT variables and on the test/production selection, the
resulting provider configuration is identical. -/
theorem evalModule_depends_only_on_inputs {α : Type} (J : JsonModel α)
    (e1 e2 : Env)
    (hv : ∀ v ∈ customAgentVarNames, e1.vars v = e2.vars v)
    (ht : e1.isTest = e2.isTest) :
    evalModule J e1 = evalModule J e2 := by
  have hA := hv "CUSTOM_AGENT_PROVIDER_NAME" (by decide)
  have hB := hv "CUSTOM_AGENT_API_KEY" (by decide)
  have hC := hv "CUSTOM_AGENT_BASE_URL" (by decide)
  have hD := hv "CUSTOM_AGENT_HEADERS" (by decide)
  have hE := hv "CUSTOM_AGENT_CHAT_MODEL" (by decide)
  have hF := hv "CUSTOM_AGENT_REASONING_MODEL" (by decide)
  have hG := hv "CUSTOM_AGENT_TITLE_MODEL" (by decide)
  have hH := hv "CUSTOM_AGENT_ARTIFACT_MODEL" (by decide)
  simp only [evalModule, myProvider, customAgentProvider, customAgentHeaders,
    hA, hB, hC, hD, hE, hF, hG, hH, ht]

/-- Claim C6 witness: an environment with an unrelated variable set and
one with nothing set, agreeing on the eight variables and the selection,
produce the same configuration. -/
theorem evalModule_depends_only_on_inputs_witness :
    evalModule JUnit envProdExtra = evalModule JUnit envProdNone :=
  evalModule_depends_only_on_inputs JUnit envProdExtra envProdNone
    (by decide) rfl

/-- Claim C7: module evaluation is a pure function of its inputs:
evaluating under environments with identical variables and identical
test selection yields identical exported values of customAgentProvider
and myProvider. -/
theorem module_eval_deterministic {α : Type} (J : JsonModel α) (e1 e2 : Env)
    (hv : ∀ v, e1.vars v = e2.vars v) (ht : e1.isTest = e2.isTest) :
    customAgentProvider J e1 = customAgentProvider J e2 ∧
    myProvider J e1 = myProvider J e2 := by
  simp only [customAgentProvider, myProvider, customAgentHeaders,
    hv "CUSTOM_AGENT_PROVIDER_NAME", hv "CUSTOM_AGENT_API_KEY",
    hv "CUSTOM_AGENT_BASE_URL", hv "CUSTOM_AGENT_HEADERS",
    hv "CUSTOM_AGENT_CHAT_MODEL", hv "CUSTOM_AGENT_REASONING_MODEL",
    hv "CUSTOM_AGENT_TITLE_MODEL", hv "CUSTOM_AGENT_ARTIFACT_MODEL", ht,
    and_self]

/-- Claim C7 witness: two definitionally distinct but extensionally
identical environments give identical exports. -/
theorem module_eval_deterministic_witness :
    customAgentProvider JUnit envProdNone = customAgentProvider JUnit envProdNone2 ∧
    myProvider JUnit envProdNone = myProvider JUnit envProdNone2 :=
  module_eval_deterministic JUnit envProdNone envProdNone2 (fun _ => rfl) rfl

/-- Claim C8: the module loads even when all eight CUSTOM_AGENT
variables are absent, applying the fixed fallbacks: name "custom-agent",
apiKey "dummy-key", baseURL "http://localhost:8000/v1" and empty-object
headers. -/
theorem module_loads_without_env {α : Type} (J : JsonModel α) (env : Env)
    (hv : ∀ v ∈ customAgentVarNames, env.vars v = none) :
    ∃ m, evalModule J env = some m ∧
      m.customAgentProvider =
        { name := "custom-agent", apiKey := "dummy-key",
          baseURL := "http://localhost:8000/v1", headers := J.emptyObj } := by
  have hA := hv "CUSTOM_AGENT_PROVIDER_NAME" (by decide)
  have hB := hv "CUSTOM_AGENT_API_KEY" (by decide)
  have hC := hv "CUSTOM_AGENT_BASE_URL" (by decide)
  have hD := hv "CUSTOM_AGENT_HEADERS" (by decide)
  unfold evalModule myProvider customAgentProvider customAgentHeaders
  rw [hA, hB, hC, hD]
  exact ⟨_, rfl, rfl⟩

/-- Claim C8 witness: the fallback configuration at the concrete
all-unset production environment. -/
theorem module_loads_without_env_witness :
    ∃ m, evalModule JUnit envProdNone = some m ∧
      m.customAgentProvider =
        { name := "custom-agent", apiKey := "dummy-key",
          baseURL := "http://localhost:8000/v1", headers := () } :=
  module_loads_without_env JUnit envProdNone (by decide)

/-- Claim C9: DEFAULT_CHAT_MODEL is "chat-model", the id of a member of
chatModels; chatModels has exactly the two ids "chat-model" and
"chat-model-reasoning"; and every id in chatModels is a key of
myProvider's language-model mapping in either branch. -/
theorem chatModels_align_with_provider {α : Type} (J : JsonModel α)
    (env : Env) (p : Provider α) (h : myProvider J env = some p) :
    DEFAULT_CHAT_MODEL = "chat-model" ∧
    (∃ c ∈ chatModels, c.id = DEFAULT_CHAT_MODEL) ∧
    chatModels.map ChatModel.id = ["chat-model", "chat-model-reasoning"] ∧
    ∀ c ∈ chatModels, c.id ∈ p.languageModels.map Prod.fst := by
  refine ⟨rfl, by decide, rfl, ?_⟩
  rw [languageModels_keys J env p h]
  decide

/-- Claim C9 witness: the alignment evaluated at a concrete test
environment. -/
theorem chatModels_align_with_provider_witness :
    DEFAULT_CHAT_MODEL = "chat-model" ∧
    (∃ c ∈ chatModels, c.id = DEFAULT_CHAT_MODEL) ∧
    chatModels.map ChatModel.id = ["chat-model", "chat-model-reasoning"] ∧
    ∀ c ∈ chatModels, c.id ∈ pTestU.languageModels.map Prod.fst :=
  chatModels_align_with_provider JUnit envTestNone pTestU rfl

/-- Claim C10: in test environments the language-model mapping is the
same fixed table of test doubles whatever the model-selection variables:
any two test environments with loaded providers agree on the mapping. -/
theorem test_mapping_env_independent {α : Type} (J : JsonModel α)
    (e1 e2 : Env) (p1 p2 : Provider α)
    (h1 : myProvider J e1 = some p1) (h2 : myProvider J e2 = some p2)
    (t1 : e1.isTest = true) (t2 : e2.isTest = true) :
    p1.languageModels = p2.languageModels ∧
    p1.languageModels =
      [("chat-model", LanguageModel.chatModel),
       ("chat-model-reasoning", LanguageModel.reasoningModel),
       ("title-model", LanguageModel.titleModel),
       ("artifact-model", LanguageModel.artifactModel)] := by
  obtain ⟨cap1, _, hp1⟩ := myProvider_some_elim J e1 p1 h1
  obtain ⟨cap2, _, hp2⟩ := myProvider_some_elim J e2 p2 h2
  subst hp1
  subst hp2
  rw [t1, t2]
  exact ⟨rfl, rfl⟩

/-- Claim C10 witness: two test environments differing in
CUSTOM_AGENT_CHAT_MODEL give the same mapping of test doubles. -/
theorem test_mapping_env_independent_witness :
    pTestU.languageModels = pTestU.languageModels ∧
    pTestU.languageModels =
      [("chat-model", LanguageModel.chatModel),
       ("chat-model-reasoning", LanguageModel.reasoningModel),
       ("title-model", LanguageModel.titleModel),
       ("artifact-model", LanguageModel.artifactModel)] :=
  test_mapping_env_independent JUnit envTestNone envTestModels pTestU pTestU
    rfl (by decide) rfl rfl
